import Mathlib

/-!
Verification of the authentication-context layer of the Zankli-Request
front end (src/context/AuthContext.tsx, src/hooks/useRequests.ts).

The backend (Supabase) is modelled as an `Oracle` giving the outcome of
each backend call a `login`/`logout` invocation can make: each call either
resolves to its value (`Except.ok`) or rejects with a thrown error
(`Except.error`).  `login` and `logout` are translated as pure functions
from the oracle to the resolved value together with a trace of effects
(`Event`s): backend calls, `console.error` logs, and React state-setter
invocations.  Applying the state-setter events to an `AuthState` gives the
provider state after the call's updates are flushed.
-/

namespace ZankliRequest

/-- A JavaScript error value; `message` mirrors `e.message`, with the empty
string standing for a falsy/absent message. -/
structure JsErr where
  message : String
deriving DecidableEq, Repr

/-- The identity fields of a backend session that AuthContext reads
(`session.user.id`, `session.user.email!`). -/
structure Session where
  userId : String
  email : String
deriving DecidableEq, Repr

/-- A row of the `profiles` table as selected by `fetchUserProfile`
(`select('role, full_name')`). -/
structure Profile where
  role : String
  full_name : String
deriving DecidableEq, Repr

/-- The `User` record of src/types assembled by `fetchUserProfile`. -/
structure User where
  id : String
  email : String
  role : String
  fullName : String
deriving DecidableEq, Repr

/-- The `data` field of `supabase.auth.signInWithPassword`'s resolved value. -/
structure SignInData where
  session : Option Session
deriving DecidableEq, Repr

/-- The resolved value of `supabase.auth.signInWithPassword`. -/
structure SignInResponse where
  data : SignInData
  error : Option JsErr
deriving DecidableEq, Repr

/-- The resolved value of the `profiles` single-row query inside
`fetchUserProfile`. -/
structure ProfileQueryResult where
  data : Option Profile
  error : Option JsErr
deriving DecidableEq, Repr

/-- One observable effect of a `login`/`logout` invocation: a backend
call, a `console.error` log, or a React state-setter call. -/
inductive Event where
  | signInCall
  | profileQueryCall
  | signOutCall
  | logError (msg : String)
  | setCurrentUser (u : Option User)
  | setSession (s : Option Session)
  | setIsAuthenticating (b : Bool)
deriving DecidableEq, Repr

/-- `true` exactly on `setIsAuthenticating` events. -/
def Event.isSetAuth : Event → Bool
  | .setIsAuthenticating _ => true
  | _ => false

/-- `true` exactly on the backend sign-out call event. -/
def Event.isSignOut : Event → Bool
  | .signOutCall => true
  | _ => false

/-- The backend's behaviour for one `login` invocation: the outcome of the
sign-in call, of the profile query, and of the compensating sign-out call
(each may resolve, or reject with a thrown error). `signOut`'s resolved
value is `{ error }`, an optional error object. -/
structure Oracle where
  signIn : Except JsErr SignInResponse
  profileQuery : Except JsErr ProfileQueryResult
  signOut : Except JsErr (Option JsErr)
deriving Repr

/-- `e.message || fallback`: a falsy (empty) message is replaced by the
fallback string. -/
def jsMessageOr (m fallback : String) : String :=
  if m = "" then fallback else m

/-- The fixed string returned when the profile lookup after a successful
sign-in fails. -/
def supportMessage : String :=
  "Login successful, but failed to retrieve user profile. Please contact support."

/-- The fixed string returned when sign-in resolves with neither an error
nor a session. -/
def unknownLoginMessage : String :=
  "An unknown error occurred during login."

/-- The fallback string of the outer catch, used when the thrown error has
a falsy message. -/
def networkErrorMessage : String :=
  "An unexpected network error occurred."

/-- The message of the error thrown when the profile query resolves with
no error but also no row. -/
def missingProfileMessage : String :=
  "User is authenticated but a profile is missing."

/-- `fetchUserProfile` from AuthContext.tsx, as a function of the session
and of the profile query's outcome `q` (resolved value or rejection): a
query rejection or a resolved error is propagated, a present row is
assembled into a `User` from session identity plus profile fields, and an
absent row raises the missing-profile error. -/
def fetchUserProfile (session : Session) (q : Except JsErr ProfileQueryResult) :
    Except JsErr User :=
  match q with
  | .error e => .error e
  | .ok r =>
    match r.error with
    | some e => .error e
    | none =>
      match r.data with
      | some profile =>
        .ok { id := session.userId, email := session.email,
              role := profile.role, fullName := profile.full_name }
      | none => .error { message := missingProfileMessage }

/-- The effect trace of one run of `fetchUserProfile`: the query call,
plus the `console.error` log when the query resolves with an error. -/
def fetchUserProfileEvents (q : Except JsErr ProfileQueryResult) : List Event :=
  match q with
  | .error _ => [.profileQueryCall]
  | .ok r =>
    match r.error with
    | some e => [.profileQueryCall, .logError ("Error fetching user profile: " ++ e.message)]
    | none => [.profileQueryCall]

/-- The body of `login`'s outer `try` (with the outer `catch` applied):
sign-in rejection or a thrown error anywhere lands in the outer catch and
yields `e.message || networkErrorMessage`; a resolved sign-in error is
returned as is; with a session, the profile fetch either succeeds (state
setters fire, `error: null`) or fails (compensating sign-out, then the
fixed support message — unless the sign-out itself rejects, in which case
its error reaches the outer catch); a resolved sign-in with no session
yields the fixed unknown-error message. -/
def loginBody (o : Oracle) : Option String × List Event :=
  match o.signIn with
  | .error e => (some (jsMessageOr e.message networkErrorMessage), [.signInCall])
  | .ok resp =>
    match resp.error with
    | some err => (some err.message, [.signInCall])
    | none =>
      match resp.data.session with
      | some sess =>
        match fetchUserProfile sess o.profileQuery with
        | .ok userProfile =>
          (none, .signInCall :: (fetchUserProfileEvents o.profileQuery ++
            [.setCurrentUser (some userProfile), .setSession (some sess)]))
        | .error _ =>
          match o.signOut with
          | .ok _ =>
            (some supportMessage,
             .signInCall :: (fetchUserProfileEvents o.profileQuery ++ [.signOutCall]))
          | .error e =>
            (some (jsMessageOr e.message networkErrorMessage),
             .signInCall :: (fetchUserProfileEvents o.profileQuery ++ [.signOutCall]))
      | none => (some unknownLoginMessage, [.signInCall])

/-- `login` from AuthContext.tsx: `setIsAuthenticating(true)`, the
try/catch body, and the `finally` clause `setIsAuthenticating(false)`
which runs on every path before the promise resolves. Returns the
resolved `{ error }` value and the effect trace. -/
def login (o : Oracle) : Option String × List Event :=
  ((loginBody o).1,
   .setIsAuthenticating true :: ((loginBody o).2 ++ [.setIsAuthenticating false]))

/-- `logout` from AuthContext.tsx: one backend sign-out call; a resolved
error is only logged; a rejection propagates (there is no catch). No
state-setter event is ever emitted. -/
def logout (o : Except JsErr (Option JsErr)) : Except JsErr Unit × List Event :=
  match o with
  | .ok (some e) => (.ok (), [.signOutCall, .logError ("Error logging out: " ++ e.message)])
  | .ok none => (.ok (), [.signOutCall])
  | .error e => (.error e, [.signOutCall])

/-- The provider's React state. -/
structure AuthState where
  currentUser : Option User
  session : Option Session
  isInitializing : Bool
  isAuthenticating : Bool
deriving DecidableEq, Repr

/-- The `useState` initial values: every load starts logged out. -/
def initialState : AuthState :=
  { currentUser := none, session := none,
    isInitializing := false, isAuthenticating := false }

/-- Apply one state-setter event to the provider state; non-setter events
leave it unchanged. -/
def applyEvent (s : AuthState) : Event → AuthState
  | .setCurrentUser u => { s with currentUser := u }
  | .setSession ss => { s with session := ss }
  | .setIsAuthenticating b => { s with isAuthenticating := b }
  | _ => s

/-- Apply a trace of events in order. -/
def applyEvents (s : AuthState) (evs : List Event) : AuthState :=
  evs.foldl applyEvent s

/-- The notification kinds of the backend auth-state-change stream. -/
inductive AuthChangeEvent where
  | SIGNED_IN
  | SIGNED_OUT
  | TOKEN_REFRESHED
  | USER_UPDATED
  | PASSWORD_RECOVERY
  | INITIAL_SESSION
deriving DecidableEq, Repr

/-- The `onAuthStateChange` handler installed by the provider's effect: on
`SIGNED_OUT` it clears both `currentUser` and `session`; every other
notification kind is ignored. -/
def onAuthStateChange (event : AuthChangeEvent) (s : AuthState) : AuthState :=
  if event = AuthChangeEvent.SIGNED_OUT then
    { s with currentUser := none, session := none }
  else s

/-- `useRequests` from src/hooks/useRequests.ts: read the context value
(`none` models `undefined`, i.e. no enclosing provider); throw a
descriptive error when it is absent, return it otherwise. -/
def useRequests {α : Type} (context : Option α) : Except String α :=
  match context with
  | none => .error "useRequests must be used within a RequestProvider"
  | some v => .ok v

/-- The states of the provider reachable from the initial state by any
sequence of `login` calls (under any backend behaviour), `logout` calls,
and auth-state-change notifications, each with its state updates applied. -/
inductive Reachable : AuthState → Prop where
  | init : Reachable initialState
  | login (o : Oracle) {s : AuthState} :
      Reachable s → Reachable (applyEvents s (login o).2)
  | logout (o : Except JsErr (Option JsErr)) {s : AuthState} :
      Reachable s → Reachable (applyEvents s (logout o).2)
  | authChange (e : AuthChangeEvent) {s : AuthState} :
      Reachable s → Reachable (onAuthStateChange e s)

/-- The fixed-or-derived unexpected-error shapes of the spec's taxonomy:
the fixed unknown-login message, the fixed network-fallback message, or
the message of an error thrown by a backend call (sign-in or the
compensating sign-out) and caught by `login`'s outer catch. -/
def unexpectedErrMsg (o : Oracle) (m : String) : Prop :=
  m = unknownLoginMessage ∨ m = networkErrorMessage ∨
  ∃ e, (o.signIn = .error e ∨ o.signOut = .error e) ∧ m = e.message

/-! ### Concrete fixtures used by witnesses and counterexamples -/

/-- A sample session identity. -/
def sessA : Session := { userId := "user-1", email := "ada@example.com" }

/-- A sample profile row. -/
def profA : Profile := { role := "admin", full_name := "Ada Admin" }

/-- A resolved sign-in response carrying `sessA` and no error. -/
def respA : SignInResponse := { data := { session := some sessA }, error := none }

/-- A resolved profile query returning exactly the row `profA`. -/
def queryA : ProfileQueryResult := { data := some profA, error := none }

/-- Backend behaviour of a fully successful login. -/
def oracleA : Oracle :=
  { signIn := .ok respA, profileQuery := .ok queryA, signOut := .ok none }

/-- Backend behaviour where sign-in succeeds, the profile query resolves
with no row, and the compensating sign-out call rejects. -/
def oracleB : Oracle :=
  { signIn := .ok respA,
    profileQuery := .ok { data := none, error := none },
    signOut := .error { message := "Sign-out network failure" } }

/-- Backend behaviour where sign-in succeeds, the profile query resolves
with no row, and the compensating sign-out call resolves. -/
def oracleC : Oracle :=
  { signIn := .ok respA,
    profileQuery := .ok { data := none, error := none },
    signOut := .ok none }

/-- A resolved sign-in response rejecting the credentials. -/
def respD : SignInResponse :=
  { data := { session := none }, error := some { message := "Invalid login credentials" } }

/-- Backend behaviour of a credential rejection. -/
def oracleD : Oracle :=
  { signIn := .ok respD, profileQuery := .ok queryA, signOut := .ok none }

/-! ### Helper lemmas -/

/-- Running `fetchUserProfile` never touches provider state: its trace has
no state-setter events. -/
theorem applyEvents_fetchUserProfileEvents (q : Except JsErr ProfileQueryResult)
    (s : AuthState) : applyEvents s (fetchUserProfileEvents q) = s := by
  rcases q with e | ⟨_ | p, _ | perr⟩ <;> rfl

/-- State effect of a whole `login` call: either only `isAuthenticating`
is reset (every non-success path), or additionally `currentUser` and
`session` are both set (the success path). -/
theorem login_state_effect (o : Oracle) (s : AuthState) :
    applyEvents s (login o).2 = { s with isAuthenticating := false } ∨
    ∃ u sess, applyEvents s (login o).2 =
      { s with currentUser := some u, session := some sess, isAuthenticating := false } := by
  obtain ⟨si, pq, so⟩ := o
  rcases si with e | ⟨⟨_ | sess⟩, _ | err⟩ <;>
    rcases pq with pe | ⟨_ | p, _ | perr⟩ <;>
    rcases so with se | sr <;>
    first
      | (left; rfl)
      | (right; exact ⟨_, _, rfl⟩)

/-- A `logout` call never touches provider state. -/
theorem logout_state_effect (o : Except JsErr (Option JsErr)) (s : AuthState) :
    applyEvents s (logout o).2 = s := by
  rcases o with e | _ | e <;> rfl

/-! ### Claims -/

/-- C3: in every reachable state of the provider, `currentUser` and
`session` are both null or both non-null; no operation (login in any
outcome, logout, the auth-state-change listener) breaks this once its
state updates are applied. -/
theorem currentUser_session_together {s : AuthState} (h : Reachable s) :
    (s.currentUser = none ↔ s.session = none) := by
  induction h with
  | init => simp [initialState]
  | login o _ ih =>
    rcases login_state_effect o _ with h1 | ⟨u, sess, h1⟩ <;> rw [h1] <;>
      first
        | exact ih
        | simp
  | logout o _ ih => rw [logout_state_effect]; exact ih
  | authChange e _ ih =>
    unfold onAuthStateChange
    split <;>
      first
        | simp
        | exact ih

/-- Witness for C3: the invariant holds at the initial state, which is
reachable. -/
theorem currentUser_session_together_witness :
    (initialState.currentUser = none ↔ initialState.session = none) :=
  currentUser_session_together Reachable.init

/-- C1: when sign-in resolves with a session and no error, and the
profile query resolves with a row and no error, `login` returns
`{error: null}`, and afterwards `currentUser` is assembled from the
session's identity (`id`, `email`) plus the profile's `role` and
`full_name`, with `session` set to the sign-in session. -/
theorem login_success (o : Oracle) (resp : SignInResponse) (sess : Session)
    (q : ProfileQueryResult) (p : Profile) (s : AuthState)
    (h1 : o.signIn = .ok resp) (h2 : resp.error = none)
    (h3 : resp.data.session = some sess)
    (h4 : o.profileQuery = .ok q) (h5 : q.error = none) (h6 : q.data = some p) :
    (login o).1 = none ∧
    (applyEvents s (login o).2).currentUser =
      some { id := sess.userId, email := sess.email,
             role := p.role, fullName := p.full_name } ∧
    (applyEvents s (login o).2).session = some sess := by
  obtain ⟨si, pq, so⟩ := o
  simp only [Oracle.signIn] at h1
  simp only [Oracle.profileQuery] at h4
  subst h1; subst h4
  rcases resp with ⟨⟨sessOpt⟩, errOpt⟩
  simp only [SignInResponse.error] at h2
  simp only [SignInData.session] at h3
  subst h2; subst h3
  rcases q with ⟨dOpt, eOpt⟩
  simp only [ProfileQueryResult.error] at h5
  simp only [ProfileQueryResult.data] at h6
  subst h5; subst h6
  exact ⟨rfl, rfl, rfl⟩

/-- Witness for C1 at the concrete oracle `oracleA`. -/
theorem login_success_witness :
    oracleA.signIn = .ok respA ∧ respA.error = none ∧
    respA.data.session = some sessA ∧
    oracleA.profileQuery = .ok queryA ∧ queryA.error = none ∧
    queryA.data = some profA ∧
    ((login oracleA).1 = none ∧
     (applyEvents initialState (login oracleA).2).currentUser =
       some { id := sessA.userId, email := sessA.email,
              role := profA.role, fullName := profA.full_name } ∧
     (applyEvents initialState (login oracleA).2).session = some sessA) :=
  ⟨rfl, rfl, rfl, rfl, rfl, rfl,
   login_success oracleA respA sessA queryA profA initialState rfl rfl rfl rfl rfl rfl⟩

/-- C2: every value `login` can resolve with has its error field in one
of exactly four shapes: `null`, the backend-supplied credential-rejection
message, the fixed contact-support message, or a fixed/derived
unexpected-error message (the fixed unknown-login string, the fixed
network-fallback string, or the caught thrown error's own message). -/
theorem login_error_taxonomy (o : Oracle) :
    (login o).1 = none ∨
    (∃ resp e, o.signIn = .ok resp ∧ resp.error = some e ∧
      (login o).1 = some e.message) ∨
    (login o).1 = some supportMessage ∨
    (∃ m, (login o).1 = some m ∧ unexpectedErrMsg o m) := by
  obtain ⟨si, pq, so⟩ := o
  rcases si with e | ⟨⟨sessOpt⟩, errOpt⟩
  · -- the sign-in call itself rejects: outer catch
    right; right; right
    refine ⟨jsMessageOr e.message networkErrorMessage, rfl, ?_⟩
    by_cases h : e.message = ""
    · exact Or.inr (Or.inl (by simp [jsMessageOr, h]))
    · exact Or.inr (Or.inr ⟨e, Or.inl rfl, by simp [jsMessageOr, h]⟩)
  · rcases errOpt with _ | err
    · rcases sessOpt with _ | sess
      · -- resolved with neither error nor session
        right; right; right
        exact ⟨unknownLoginMessage, rfl, Or.inl rfl⟩
      · -- session present: the profile fetch decides the outcome
        rcases pq with pe | ⟨pd, perrOpt⟩
        · -- the profile query rejects: compensating sign-out
          rcases so with se | sr
          · right; right; right
            refine ⟨jsMessageOr se.message networkErrorMessage, rfl, ?_⟩
            by_cases h : se.message = ""
            · exact Or.inr (Or.inl (by simp [jsMessageOr, h]))
            · exact Or.inr (Or.inr ⟨se, Or.inr rfl, by simp [jsMessageOr, h]⟩)
          · right; right; left; rfl
        · rcases perrOpt with _ | perr
          · rcases pd with _ | p
            · -- no error but no row: compensating sign-out
              rcases so with se | sr
              · right; right; right
                refine ⟨jsMessageOr se.message networkErrorMessage, rfl, ?_⟩
                by_cases h : se.message = ""
                · exact Or.inr (Or.inl (by simp [jsMessageOr, h]))
                · exact Or.inr (Or.inr ⟨se, Or.inr rfl, by simp [jsMessageOr, h]⟩)
              · right; right; left; rfl
            · -- profile row found: success
              left; rfl
          · -- the profile query resolves with an error: compensating sign-out
            rcases so with se | sr
            · right; right; right
              refine ⟨jsMessageOr se.message networkErrorMessage, rfl, ?_⟩
              by_cases h : se.message = ""
              · exact Or.inr (Or.inl (by simp [jsMessageOr, h]))
              · exact Or.inr (Or.inr ⟨se, Or.inr rfl, by simp [jsMessageOr, h]⟩)
            · right; right; left; rfl
    · -- sign-in resolved with a credential-rejection error
      right; left
      exact ⟨_, err, rfl, rfl, rfl⟩

/-- C5: when sign-in resolves with an error, `login` returns exactly the
backend's own message, the profile query is never called, and the state
is left unchanged apart from `isAuthenticating` returning to false. -/
theorem login_credential_rejection (o : Oracle) (resp : SignInResponse) (e : JsErr)
    (s : AuthState) (h1 : o.signIn = .ok resp) (h2 : resp.error = some e) :
    (login o).1 = some e.message ∧
    Event.profileQueryCall ∉ (login o).2 ∧
    applyEvents s (login o).2 = { s with isAuthenticating := false } := by
  obtain ⟨si, pq, so⟩ := o
  simp only [Oracle.signIn] at h1
  subst h1
  rcases resp with ⟨⟨sessOpt⟩, errOpt⟩
  simp only [SignInResponse.error] at h2
  subst h2
  refine ⟨rfl, ?_, rfl⟩
  simp [login, loginBody]

/-- Witness for C5 at the concrete oracle `oracleD`. -/
theorem login_credential_rejection_witness :
    oracleD.signIn = .ok respD ∧
    respD.error = some { message := "Invalid login credentials" } ∧
    ((login oracleD).1 = some ({ message := "Invalid login credentials" : JsErr }).message ∧
     Event.profileQueryCall ∉ (login oracleD).2 ∧
     applyEvents initialState (login oracleD).2 =
       { initialState with isAuthenticating := false }) :=
  ⟨rfl, rfl,
   login_credential_rejection oracleD respD { message := "Invalid login credentials" }
     initialState rfl rfl⟩

/-- C6: in every outcome, the trace of a `login` call opens with
`setIsAuthenticating true`, closes with `setIsAuthenticating false`, and
contains no other `setIsAuthenticating` event: the flag is raised at the
start and reset exactly once, on the guaranteed cleanup path, before the
call resolves. -/
theorem login_isAuthenticating_lifecycle (o : Oracle) :
    ∃ l, (login o).2 = .setIsAuthenticating true :: (l ++ [.setIsAuthenticating false]) ∧
      l.filter Event.isSetAuth = [] := by
  refine ⟨(loginBody o).2, rfl, ?_⟩
  obtain ⟨si, pq, so⟩ := o
  rcases si with e | ⟨⟨_ | sess⟩, _ | err⟩ <;>
    rcases pq with pe | ⟨_ | p, _ | perr⟩ <;>
    rcases so with se | sr <;> rfl

/-- C4 (counterexample): with sign-in succeeding and the profile query
returning no row, but the compensating sign-out call rejecting, `login`
does not resolve to the fixed contact-support message — the sign-out
exception reaches the outer catch and its message is returned instead. -/
theorem login_profile_failure_counterexample :
    oracleB.signIn = .ok respA ∧ respA.error = none ∧
    respA.data.session = some sessA ∧
    fetchUserProfile sessA oracleB.profileQuery =
      .error { message := missingProfileMessage } ∧
    (login oracleB).1 = some "Sign-out network failure" ∧
    (login oracleB).1 ≠ some supportMessage := by
  refine ⟨rfl, rfl, rfl, rfl, rfl, ?_⟩
  decide

/-- C4 (amended): when sign-in resolves with a session and no error but
the profile fetch fails (query rejection, resolved error, or no row),
exactly one compensating sign-out call is issued, `currentUser` and
`session` are not set (only `isAuthenticating` returns to false), and —
provided the sign-out call itself resolves — `login` returns the fixed
contact-support message. -/
theorem login_profile_failure (o : Oracle) (resp : SignInResponse) (sess : Session)
    (pe : JsErr) (s : AuthState)
    (h1 : o.signIn = .ok resp) (h2 : resp.error = none)
    (h3 : resp.data.session = some sess)
    (h4 : fetchUserProfile sess o.profileQuery = .error pe) :
    ((login o).2.countP Event.isSignOut) = 1 ∧
    applyEvents s (login o).2 = { s with isAuthenticating := false } ∧
    (∀ r, o.signOut = .ok r → (login o).1 = some supportMessage) := by
  obtain ⟨si, pq, so⟩ := o
  simp only [Oracle.signIn] at h1
  subst h1
  rcases resp with ⟨⟨sessOpt⟩, errOpt⟩
  simp only [SignInResponse.error] at h2
  simp only [SignInData.session] at h3
  subst h2; subst h3
  simp only [Oracle.profileQuery] at h4
  rcases pq with pe2 | ⟨pd, perrOpt⟩
  · rcases so with se | sr
    · refine ⟨rfl, rfl, ?_⟩
      intro r h
      exact absurd h (by simp)
    · exact ⟨rfl, rfl, fun r _ => rfl⟩
  · rcases perrOpt with _ | perr
    · rcases pd with _ | p
      · rcases so with se | sr
        · refine ⟨rfl, rfl, ?_⟩
          intro r h
          exact absurd h (by simp)
        · exact ⟨rfl, rfl, fun r _ => rfl⟩
      · -- profile present: fetch succeeds, contradicting h4
        simp [fetchUserProfile] at h4
    · rcases so with se | sr
      · refine ⟨rfl, rfl, ?_⟩
        intro r h
        exact absurd h (by simp)
      · exact ⟨rfl, rfl, fun r _ => rfl⟩

/-- Witness for the amended C4 at the concrete oracle `oracleC`. -/
theorem login_profile_failure_witness :
    oracleC.signIn = .ok respA ∧ respA.error = none ∧
    respA.data.session = some sessA ∧
    fetchUserProfile sessA oracleC.profileQuery =
      .error { message := missingProfileMessage } ∧
    (((login oracleC).2.countP Event.isSignOut) = 1 ∧
     applyEvents initialState (login oracleC).2 =
       { initialState with isAuthenticating := false } ∧
     (∀ r, oracleC.signOut = .ok r → (login oracleC).1 = some supportMessage)) :=
  ⟨rfl, rfl, rfl, rfl,
   login_profile_failure oracleC respA sessA { message := missingProfileMessage }
     initialState rfl rfl rfl rfl⟩

/-- C10: when sign-in succeeds with a session, the profile fetch fails,
and the compensating sign-out call itself rejects, the exception is
caught by `login`'s outer handler: `login` resolves with the
exception-derived generic message (`e.message`, or the network-fallback
string when that message is falsy), and `isAuthenticating` is still reset
to false. -/
theorem login_compensating_signout_throws (o : Oracle) (resp : SignInResponse)
    (sess : Session) (pe e : JsErr) (s : AuthState)
    (h1 : o.signIn = .ok resp) (h2 : resp.error = none)
    (h3 : resp.data.session = some sess)
    (h4 : fetchUserProfile sess o.profileQuery = .error pe)
    (h5 : o.signOut = .error e) :
    (login o).1 = some (jsMessageOr e.message networkErrorMessage) ∧
    applyEvents s (login o).2 = { s with isAuthenticating := false } := by
  obtain ⟨si, pq, so⟩ := o
  simp only [Oracle.signIn] at h1
  subst h1
  rcases resp with ⟨⟨sessOpt⟩, errOpt⟩
  simp only [SignInResponse.error] at h2
  simp only [SignInData.session] at h3
  subst h2; subst h3
  simp only [Oracle.profileQuery] at h4
  simp only [Oracle.signOut] at h5
  subst h5
  rcases pq with pe2 | ⟨pd, perrOpt⟩
  · exact ⟨rfl, rfl⟩
  · rcases perrOpt with _ | perr
    · rcases pd with _ | p
      · exact ⟨rfl, rfl⟩
      · simp [fetchUserProfile] at h4
    · exact ⟨rfl, rfl⟩

/-- Witness for C10 at the concrete oracle `oracleB`. -/
theorem login_compensating_signout_throws_witness :
    oracleB.signIn = .ok respA ∧ respA.error = none ∧
    respA.data.session = some sessA ∧
    fetchUserProfile sessA oracleB.profileQuery =
      .error { message := missingProfileMessage } ∧
    oracleB.signOut = .error { message := "Sign-out network failure" } ∧
    ((login oracleB).1 =
       some (jsMessageOr ({ message := "Sign-out network failure" : JsErr }).message
         networkErrorMessage) ∧
     applyEvents initialState (login oracleB).2 =
       { initialState with isAuthenticating := false }) :=
  ⟨rfl, rfl, rfl, rfl, rfl,
   login_compensating_signout_throws oracleB respA sessA
     { message := missingProfileMessage } { message := "Sign-out network failure" }
     initialState rfl rfl rfl rfl rfl⟩

/-- C7: the auth-state-change handler clears both `currentUser` and
`session` on a SIGNED_OUT notification, and leaves the state unchanged on
every other notification kind. -/
theorem authChange_handler (s : AuthState) :
    onAuthStateChange AuthChangeEvent.SIGNED_OUT s =
      { s with currentUser := none, session := none } ∧
    onAuthStateChange AuthChangeEvent.SIGNED_IN s = s ∧
    onAuthStateChange AuthChangeEvent.TOKEN_REFRESHED s = s ∧
    onAuthStateChange AuthChangeEvent.USER_UPDATED s = s ∧
    onAuthStateChange AuthChangeEvent.PASSWORD_RECOVERY s = s ∧
    onAuthStateChange AuthChangeEvent.INITIAL_SESSION s = s :=
  ⟨rfl, rfl, rfl, rfl, rfl, rfl⟩

/-- C8: `logout` mutates no local state (its trace has no state-setter
events), a resolved sign-out error is logged and not surfaced, and
whenever the backend sign-out call resolves, `logout` resolves
successfully. -/
theorem logout_frame (o : Except JsErr (Option JsErr)) (s : AuthState) :
    applyEvents s (logout o).2 = s ∧
    (∀ e, o = .ok (some e) →
      Event.logError ("Error logging out: " ++ e.message) ∈ (logout o).2) ∧
    (∀ r, o = .ok r → (logout o).1 = .ok ()) := by
  refine ⟨logout_state_effect o s, ?_, ?_⟩
  · intro e h
    subst h
    simp [logout]
  · intro r h
    subst h
    rcases r with _ | e <;> rfl

/-- Witness for C8 with a sign-out call that resolves with an error. -/
theorem logout_frame_witness :
    applyEvents initialState (logout (.ok (some { message := "boom" }))).2 =
      initialState ∧
    Event.logError ("Error logging out: " ++ ({ message := "boom" : JsErr }).message) ∈
      (logout (.ok (some { message := "boom" }))).2 ∧
    (logout (.ok (some { message := "boom" }))).1 = .ok () :=
  ⟨(logout_frame (.ok (some { message := "boom" })) initialState).1,
   (logout_frame (.ok (some { message := "boom" })) initialState).2.1 _ rfl,
   (logout_frame (.ok (some { message := "boom" })) initialState).2.2 _ rfl⟩

/-- C9: `useRequests` throws the descriptive provider-naming error when
the context value is absent (used outside the provider), and returns the
provided value otherwise. -/
theorem useRequests_contract {α : Type} (v : α) :
    useRequests (none : Option α) =
      .error "useRequests must be used within a RequestProvider" ∧
    useRequests (some v) = .ok v :=
  ⟨rfl, rfl⟩

end ZankliRequest
